import Mathlib

/-!
Shallow embedding of the BOOM payment-gateway Python client
(src/examples/python/payment_client.py and simple_payment.py).

HTTP traffic is modelled by making each network operation a function of the
network outcome it observes: a constructor for a network-level failure
(connection failure or timeout, the exceptions of the requests library that
are not tied to a received response) and a constructor for a received
response carrying an HTTP status code and a body that either is or is not
valid JSON.  Each operation returns the HTTP request it issued (method, URL,
body, timeout, headers) together with the result the Python code would
produce for that outcome: the decoded JSON on success, or the exception the
code raises, as an Except value.
-/

namespace Boom

/-- A JSON value, as decoded by response.json(). -/
inductive Json where
  | null : Json
  | bool : Bool → Json
  | num : Int → Json
  | str : String → Json
  | arr : List Json → Json
  | obj : List (String × Json) → Json

/-- Field lookup in a JSON object field list (first match wins, as in a dict). -/
def getFieldAux : List (String × Json) → String → Option Json
  | [], _ => none
  | (k, v) :: rest, key => if k = key then some v else getFieldAux rest key

/-- d.get(key) on a JSON object; none on non-objects. -/
def Json.getField : Json → String → Option Json
  | .obj fields, key => getFieldAux fields key
  | _, _ => none

/-- Lookup in a string-valued dict, modelled as an association list. -/
def dictGet : List (String × String) → String → Option String
  | [], _ => none
  | (k, v) :: rest, key => if k = key then some v else dictGet rest key

/-- d[key] = val on a string-valued dict: overwrite in place if the key is
present, append otherwise. -/
def dictSet : List (String × String) → String → String → List (String × String)
  | [], key, val => [(key, val)]
  | (k, v) :: rest, key, val =>
      if k = key then (key, val) :: rest else (k, v) :: dictSet rest key val

/-- Python truthiness of a string: non-empty. -/
def pyTruthyStr (s : String) : Bool := s != ""

/-- Python truthiness of an Optional[str]: None and the empty string are falsy. -/
def pyTruthy : Option String → Bool
  | none => false
  | some s => pyTruthyStr s

/-- The character test used by base_url.rstrip('/'). -/
def isSlash (ch : Char) : Bool := ch == '/'

/-- base_url.rstrip('/'): remove every trailing '/' character. -/
def rstripSlash (s : String) : String :=
  String.mk ((s.data.reverse.dropWhile isSlash).reverse)

/-- The client state: configuration plus the session's default headers
(payment_client.py, PaymentGatewayClient). -/
structure Client where
  base_url : String
  api_key : Option String
  api_version : String
  headers : List (String × String)

/-- The default session headers set in __init__. -/
def defaultHeaders : List (String × String) :=
  [("Content-Type", "application/json"),
   ("User-Agent", "BOOM-Payment-Gateway-Python-Client/1.0")]

/-- PaymentGatewayClient.__init__: strip trailing slashes from the base URL,
store the key and version, and set the default headers, adding X-API-Key
when a truthy API key is given. -/
def mkClient (base_url : String) (api_key : Option String) (api_version : String) : Client :=
  { base_url := rstripSlash base_url,
    api_key := api_key,
    api_version := api_version,
    headers :=
      if pyTruthy api_key then
        dictSet defaultHeaders "X-API-Key" (api_key.getD "")
      else defaultHeaders }

/-- PaymentGatewayClient._get_endpoint: the full API endpoint URL. -/
def get_endpoint (c : Client) (path : String) : String :=
  c.base_url ++ "/api/" ++ c.api_version ++ path

/-- The body of a received HTTP response: either raw text that is not valid
JSON, or a decoded JSON value. -/
inductive RespBody where
  | invalidJson : String → RespBody
  | validJson : Json → RespBody

/-- The outcome a network operation observes: a network-level failure
(connection failure, DNS failure, timeout: the requests exceptions raised
before a response exists), or a received response with status and body. -/
inductive NetOutcome where
  | netFailure : String → NetOutcome
  | response : Nat → RespBody → NetOutcome

/-- The HTTP request an operation issues, with its JSON-serialised body of
type β. -/
structure HttpRequest (β : Type) where
  method : String
  url : String
  body : Option β
  timeout : Nat
  headers : List (String × String)

/-- The exceptions _make_request raises: Exception("API request failed: ...")
for any requests.exceptions.RequestException (network failure or the
HTTPError from raise_for_status), and Exception("Invalid response format")
for a JSON decoding failure. -/
inductive ReqError where
  | requestFailed : String → ReqError
  | invalidFormat : ReqError

/-- PaymentGatewayClient._make_request: build the request against the full
endpoint URL with timeout 30 and the session headers, then raise_for_status
(HTTP status 400 and above raises) and decode the JSON body.  The success
field of the body is never inspected. -/
def make_request {β : Type} (c : Client) (method endpoint : String)
    (data : Option β) (o : NetOutcome) : HttpRequest β × Except ReqError Json :=
  ({ method := method, url := get_endpoint c endpoint, body := data,
     timeout := 30, headers := c.headers },
   match o with
   | .netFailure msg => .error (.requestFailed ("API request failed: " ++ msg))
   | .response status body =>
       if 400 ≤ status then
         .error (.requestFailed ("API request failed: HTTP " ++ toString status))
       else
         match body with
         | .invalidJson _ => .error .invalidFormat
         | .validJson j => .ok j)

/-- The exceptions health_check re-raises unchanged: a requests network-level
exception (connection failure or timeout), the HTTPError raised by
raise_for_status, or the JSON decoding error raised by response.json().
Only the first is a connection-level error in the requests exception
hierarchy. -/
inductive HealthError where
  | connectionFailure : String → HealthError
  | httpError : Nat → HealthError
  | jsonDecodeError : HealthError

/-- Whether a health_check exception is a network-level (connection/timeout)
error, as opposed to an HTTP-status or JSON-decoding error. -/
def HealthError.isConnectionError : HealthError → Bool
  | .connectionFailure _ => true
  | .httpError _ => false
  | .jsonDecodeError => false

/-- PaymentGatewayClient.health_check: GET {base_url}/health with timeout 10,
raise_for_status, decode JSON; every exception is logged and re-raised
unchanged. -/
def health_check (c : Client) (o : NetOutcome) :
    HttpRequest Unit × Except HealthError Json :=
  ({ method := "GET", url := c.base_url ++ "/health", body := none,
     timeout := 10, headers := c.headers },
   match o with
   | .netFailure msg => .error (.connectionFailure msg)
   | .response status body =>
       if 400 ≤ status then .error (.httpError status)
       else
         match body with
         | .invalidJson _ => .error .jsonDecodeError
         | .validJson j => .ok j)

/-- Card data of a payment payload. -/
structure CardData where
  cardNumber : String
  expiryDate : String
  cvv : String
  cardholderName : String

/-- Customer information of a payment payload. -/
structure CustomerInfo where
  email : String
  firstName : String
  lastName : String

/-- Order information of a payment payload. -/
structure OrderData where
  orderId : String
  description : String

/-- A payment payload (the payment_data dict): amount in minor units,
currency, card data, optional customer and order information, and an
optional metadata mapping of string to string. -/
structure PaymentData where
  amount : Int
  currency : String
  cardData : CardData
  customerInfo : Option CustomerInfo
  orderData : Option OrderData
  metadata : Option (List (String × String))

/-- The endpoint process_payment selects: the secure path when the API key
is truthy, the open path otherwise. -/
def process_payment_endpoint (c : Client) : String :=
  if pyTruthy c.api_key then "/payments/process-secure" else "/payments/process"

/-- The metadata mutation process_payment performs on the caller's dict:
payment_data["metadata"] = payment_data.get("metadata", {}) then set
clientLibrary and timestamp. -/
def inject_metadata (pd : PaymentData) (ts : String) : PaymentData :=
  let md := pd.metadata.getD []
  let md2 := dictSet (dictSet md "clientLibrary" "python") "timestamp" ts
  { pd with metadata := some md2 }

/-- PaymentGatewayClient.process_payment: choose the endpoint from the API
key, mutate the caller's payload in place (metadata injection happens before
the request is made), then POST the mutated payload via _make_request.
Returns the caller's payload as it is after the call, the issued request,
and the result. The ts argument is datetime.now().isoformat(). -/
def process_payment (c : Client) (payment_data : PaymentData) (ts : String)
    (o : NetOutcome) : PaymentData × HttpRequest PaymentData × Except ReqError Json :=
  let endpoint := process_payment_endpoint c
  let mutated := inject_metadata payment_data ts
  let r := make_request c "POST" endpoint (some mutated) o
  (mutated, r.1, r.2)

/-- PaymentGatewayClient.get_transaction: copy the session headers, update
them with the Bearer authorization header, issue the GET via _make_request,
and in a finally block restore the saved headers, so they are restored on
the raising path as well.  Returns the client state after the call, the
issued request, and the result. -/
def get_transaction (c : Client) (transaction_id auth_token : String)
    (o : NetOutcome) : Client × HttpRequest Unit × Except ReqError Json :=
  let old_headers := c.headers
  let c1 : Client :=
    { c with headers := dictSet c.headers "Authorization" ("Bearer " ++ auth_token) }
  let r := make_request c1 "GET" ("/transactions/" ++ transaction_id)
    (none : Option Unit) o
  ({ c1 with headers := old_headers }, r.1, r.2)

/-- The body POSTed by authenticate. -/
structure AuthBody where
  email : String
  password : String

/-- PaymentGatewayClient.authenticate: POST /auth/login with email and
password via _make_request. -/
def authenticate (c : Client) (email password : String) (o : NetOutcome) :
    HttpRequest AuthBody × Except ReqError Json :=
  make_request c "POST" "/auth/login" (some { email := email, password := password }) o

/-- The dict returned by create_payment_form_data. -/
structure FormData where
  amount : Int
  currency : String
  orderId : String
  timestamp : String
  apiUrl : String

/-- PaymentGatewayClient.create_payment_form_data: a pure construction with
no request.  orderId is the Python expression order_id or str(uuid.uuid4()):
the supplied order_id when it is truthy (a non-empty string), otherwise the
freshly generated UUID.  fresh_uuid and ts stand for str(uuid.uuid4()) and
datetime.now().isoformat(). -/
def create_payment_form_data (c : Client) (amount : Int) (currency : String)
    (order_id : Option String) (fresh_uuid ts : String) : FormData :=
  { amount := amount,
    currency := currency,
    orderId :=
      match order_id with
      | some s => if pyTruthyStr s then s else fresh_uuid
      | none => fresh_uuid,
    timestamp := ts,
    apiUrl := get_endpoint c "/payments/process" }

/-- The client of the concrete scenario: base URL http://localhost:3000,
no API key, version v1. -/
def localClient : Client := mkClient "http://localhost:3000" none "v1"

/-- The concrete payment payload of the scenario in the docstring and in
simple_payment.py. -/
def examplePayment : PaymentData :=
  { amount := 2999,
    currency := "USD",
    cardData :=
      { cardNumber := "4111111111111111", expiryDate := "12/25",
        cvv := "123", cardholderName := "John Doe" },
    customerInfo := some
      { email := "customer@example.com", firstName := "John", lastName := "Doe" },
    orderData := none,
    metadata := none }

/-- A well-formed 2xx response body carrying success: false. -/
def declinedBody : Json :=
  Json.obj [("success", Json.bool false), ("message", Json.str "Card declined")]

/-- A payment payload whose caller already supplied values under the two
metadata keys the client injects, plus an unrelated key. -/
def withCallerStamps (pd : PaymentData) (v1 v2 : String) : PaymentData :=
  { pd with metadata := some (dictSet (dictSet (pd.metadata.getD []) "clientLibrary" v1) "timestamp" v2) }

/- ================= helper lemmas ================= -/

/-- Looking up the key just set in a dict yields the value set. -/
theorem dictGet_dictSet_self (d : List (String × String)) (k v : String) :
    dictGet (dictSet d k v) k = some v := by
  induction d with
  | nil => simp [dictSet, dictGet]
  | cons hd tl ih =>
      obtain ⟨k1, v1⟩ := hd
      by_cases h : k1 = k
      · simp [dictSet, dictGet, h]
      · simp [dictSet, dictGet, h, ih]

/-- Setting one key does not change the lookup of a different key. -/
theorem dictGet_dictSet_ne (d : List (String × String)) (k k2 v : String)
    (h : k2 ≠ k) : dictGet (dictSet d k v) k2 = dictGet d k2 := by
  have h2 : k ≠ k2 := Ne.symm h
  induction d with
  | nil => simp [dictSet, dictGet, h2]
  | cons hd tl ih =>
      obtain ⟨k1, v1⟩ := hd
      by_cases h1 : k1 = k
      · subst h1
        simp [dictSet, dictGet, h2]
      · simp [dictSet, dictGet, h1, ih]

/-- Dropping leading slashes past a block of slashes reaches the remainder. -/
theorem dropWhile_slash_replicate (n : Nat) (l : List Char) :
    List.dropWhile isSlash (List.replicate n '/' ++ l) = List.dropWhile isSlash l := by
  induction n with
  | zero => rfl
  | succ k ih => simp [List.replicate_succ, List.dropWhile, isSlash, ih]

/-- rstrip('/') erases any block of trailing slashes. -/
theorem rstripSlash_append_slashes (b : String) (n : Nat) :
    rstripSlash (b ++ String.mk (List.replicate n '/')) = rstripSlash b := by
  unfold rstripSlash
  have h1 : (b ++ String.mk (List.replicate n '/')).data = b.data ++ List.replicate n '/' := rfl
  rw [h1, List.reverse_append, List.reverse_replicate, dropWhile_slash_replicate]

/- ================= claim theorems ================= -/

/-- C1: for every payment payload and client configuration, process_payment
issues its request to the full endpoint URL of the selected path, and the
selected path is /payments/process-secure iff an API key is configured on
the client (a truthy key: present and non-empty), and /payments/process
otherwise. -/
theorem processPayment_secure_endpoint_iff (c : Client) (pd : PaymentData)
    (ts : String) (o : NetOutcome) :
    (process_payment c pd ts o).2.1.url = get_endpoint c (process_payment_endpoint c)
    ∧ (process_payment_endpoint c = "/payments/process-secure" ↔ pyTruthy c.api_key = true)
    ∧ (process_payment_endpoint c = "/payments/process" ↔ pyTruthy c.api_key = false) := by
  refine ⟨rfl, ?_, ?_⟩ <;>
    cases h : pyTruthy c.api_key <;>
      simp [process_payment_endpoint, h]

/-- C3: get_transaction leaves the client's default header set after the call
equal to the header set before the call, for every network outcome, hence on
the succeeding and on the raising exit path alike. -/
theorem get_transaction_restores_headers (c : Client) (tid auth : String)
    (o : NetOutcome) :
    ((get_transaction c tid auth o).1).headers = c.headers := rfl

/-- C7: with base URL http://localhost:3000, version v1 and no API key,
process_payment on the example payload issues a POST to exactly
http://localhost:3000/api/v1/payments/process, and endpoint URLs are built
as base_url ++ "/api/" ++ version ++ path. -/
theorem process_payment_scenario_url (ts : String) (o : NetOutcome) :
    (process_payment localClient examplePayment ts o).2.1.method = "POST"
    ∧ (process_payment localClient examplePayment ts o).2.1.url
        = "http://localhost:3000/api/v1/payments/process"
    ∧ ∀ (c : Client) (p : String),
        get_endpoint c p = c.base_url ++ "/api/" ++ c.api_version ++ p := by
  exact ⟨rfl, rfl, fun c p => rfl⟩

/-- C8: the health-check request carries a timeout of 10 seconds, and the
payment-processing, transaction-lookup and authentication requests each
carry a timeout of 30 seconds. -/
theorem request_timeouts (c : Client) (pd : PaymentData)
    (ts tid auth email pw : String) (o : NetOutcome) :
    (health_check c o).1.timeout = 10
    ∧ (process_payment c pd ts o).2.1.timeout = 30
    ∧ (get_transaction c tid auth o).2.1.timeout = 30
    ∧ (authenticate c email pw o).1.timeout = 30 :=
  ⟨rfl, rfl, rfl, rfl⟩

/-- C9: process_payment mutates the caller's payload: the payload as the
caller sees it after the call has metadata.clientLibrary = "python" and
metadata.timestamp set by the client, overwriting any caller-supplied values
under those two keys, and the post-call payload is the same for every
network outcome, so the mutation is present even when the request raises. -/
theorem process_payment_mutates_caller_payload (c : Client) (pd : PaymentData)
    (ts v1 v2 : String) (o o2 : NetOutcome) :
    dictGet (((process_payment c (withCallerStamps pd v1 v2) ts o).1).metadata.getD [])
        "clientLibrary" = some "python"
    ∧ dictGet (((process_payment c (withCallerStamps pd v1 v2) ts o).1).metadata.getD [])
        "timestamp" = some ts
    ∧ (process_payment c pd ts o).1 = (process_payment c pd ts o2).1 := by
  refine ⟨?_, ?_, rfl⟩
  · show dictGet (dictSet (dictSet _ "clientLibrary" "python") "timestamp" ts)
        "clientLibrary" = some "python"
    rw [dictGet_dictSet_ne _ _ _ _ (by decide), dictGet_dictSet_self]
  · exact dictGet_dictSet_self _ _ _

/-- C10: the constructor strips all trailing slashes from the base URL, so a
client built from b and one built from b followed by any number of slashes
have the same stored base URL, produce the same endpoint URL for every path,
and issue the health check against the same URL. -/
theorem trailing_slash_invariance (b v p : String) (k : Option String)
    (n : Nat) (o : NetOutcome) :
    (mkClient (b ++ String.mk (List.replicate n '/')) k v).base_url
        = (mkClient b k v).base_url
    ∧ get_endpoint (mkClient (b ++ String.mk (List.replicate n '/')) k v) p
        = get_endpoint (mkClient b k v) p
    ∧ (health_check (mkClient (b ++ String.mk (List.replicate n '/')) k v) o).1.url
        = (health_check (mkClient b k v) o).1.url := by
  have h := rstripSlash_append_slashes b n
  refine ⟨?_, ?_, ?_⟩ <;> simp [mkClient, get_endpoint, health_check, h]

/-- C2 counterexample: a response with HTTP status 200 whose JSON body
carries success: false is returned by process_payment as an ordinary Except.ok
result; no failure is raised for it. -/
theorem success_false_not_raised_cex :
    Json.getField declinedBody "success" = some (Json.bool false)
    ∧ (process_payment localClient examplePayment "2024-01-01T00:00:00"
        (.response 200 (.validJson declinedBody))).2.2 = Except.ok declinedBody :=
  ⟨rfl, rfl⟩

/-- C2 amended: the client raises only on a network failure, a status of 400
or above, or a body that is not valid JSON; every response below status 400
whose body decodes as JSON is returned to the caller unchanged, its success
field never inspected. -/
theorem make_request_raises_only_on_status_or_format {β : Type} (c : Client)
    (m ep msg raw : String) (d : Option β) (status : Nat) (body : Json)
    (h : status < 400) :
    (make_request c m ep d (.response status (.validJson body))).2 = Except.ok body
    ∧ (make_request c m ep d (.response status (.invalidJson raw))).2
        = Except.error ReqError.invalidFormat
    ∧ (make_request c m ep d (.netFailure msg)).2
        = Except.error (ReqError.requestFailed ("API request failed: " ++ msg)) := by
  have hlt : ¬ 400 ≤ status := by omega
  refine ⟨?_, ?_, rfl⟩ <;> simp [make_request, hlt]

/-- C2 witness: the amended behaviour at concrete inputs. -/
theorem make_request_raises_only_on_status_or_format_witness :
    (200 : Nat) < 400
    ∧ ((make_request localClient "POST" "/payments/process"
          (some examplePayment) (.response 200 (.validJson declinedBody))).2
        = Except.ok declinedBody
      ∧ (make_request localClient "POST" "/payments/process"
          (some examplePayment) (.response 200 (.invalidJson "<html>"))).2
        = Except.error ReqError.invalidFormat
      ∧ (make_request localClient "POST" "/payments/process"
          (some examplePayment) (.netFailure "Connection refused")).2
        = Except.error (ReqError.requestFailed ("API request failed: " ++ "Connection refused"))) :=
  ⟨by decide,
   make_request_raises_only_on_status_or_format localClient "POST" "/payments/process"
     "Connection refused" "<html>" (some examplePayment) 200 declinedBody (by decide)⟩

/-- C4: the payload process_payment hands to the request has
metadata.clientLibrary = "python" and metadata.timestamp set, and every
other metadata key supplied by the caller is still present with its original
value. -/
theorem process_payment_metadata_preserved (c : Client) (pd : PaymentData)
    (ts key : String) (o : NetOutcome)
    (h1 : key ≠ "clientLibrary") (h2 : key ≠ "timestamp") :
    dictGet (((process_payment c pd ts o).1).metadata.getD []) key
        = dictGet (pd.metadata.getD []) key
    ∧ dictGet (((process_payment c pd ts o).1).metadata.getD []) "clientLibrary"
        = some "python"
    ∧ dictGet (((process_payment c pd ts o).1).metadata.getD []) "timestamp"
        = some ts := by
  refine ⟨?_, ?_, ?_⟩
  · show dictGet (dictSet (dictSet _ "clientLibrary" "python") "timestamp" ts) key
        = dictGet (pd.metadata.getD []) key
    rw [dictGet_dictSet_ne _ _ _ _ h2, dictGet_dictSet_ne _ _ _ _ h1]
  · show dictGet (dictSet (dictSet _ "clientLibrary" "python") "timestamp" ts)
        "clientLibrary" = some "python"
    rw [dictGet_dictSet_ne _ _ _ _ (by decide), dictGet_dictSet_self]
  · exact dictGet_dictSet_self _ _ _

/-- C4 witness: metadata preservation at a concrete payload carrying the
caller key orderRef. -/
theorem process_payment_metadata_preserved_witness :
    ("orderRef" ≠ "clientLibrary" ∧ "orderRef" ≠ "timestamp")
    ∧ (dictGet (((process_payment localClient
          { examplePayment with metadata := some [("orderRef", "A1")] }
          "2024-01-01T00:00:00" (.response 200 (.validJson declinedBody))).1).metadata.getD [])
        "orderRef"
        = dictGet (({ examplePayment with
            metadata := some [("orderRef", "A1")] } : PaymentData).metadata.getD []) "orderRef"
      ∧ dictGet (((process_payment localClient
          { examplePayment with metadata := some [("orderRef", "A1")] }
          "2024-01-01T00:00:00" (.response 200 (.validJson declinedBody))).1).metadata.getD [])
        "clientLibrary" = some "python"
      ∧ dictGet (((process_payment localClient
          { examplePayment with metadata := some [("orderRef", "A1")] }
          "2024-01-01T00:00:00" (.response 200 (.validJson declinedBody))).1).metadata.getD [])
        "timestamp" = some "2024-01-01T00:00:00") :=
  ⟨⟨by decide, by decide⟩,
   process_payment_metadata_preserved localClient
     { examplePayment with metadata := some [("orderRef", "A1")] }
     "2024-01-01T00:00:00" "orderRef" (.response 200 (.validJson declinedBody))
     (by decide) (by decide)⟩

/-- C5 counterexample: with an explicitly supplied empty-string orderId, the
returned orderId is the freshly generated UUID, not the supplied empty
string. -/
theorem form_data_empty_orderId_cex :
    (create_payment_form_data localClient 2999 "USD" (some "")
        "8b5c3a10-0000-4000-8000-000000000001" "2024-01-01T00:00:00").orderId
      = "8b5c3a10-0000-4000-8000-000000000001"
    ∧ (create_payment_form_data localClient 2999 "USD" (some "")
        "8b5c3a10-0000-4000-8000-000000000001" "2024-01-01T00:00:00").orderId ≠ "" := by
  refine ⟨rfl, ?_⟩
  decide

/-- C5 amended: create_payment_form_data performs no request and is pure; a
supplied orderId is echoed unchanged whenever it is non-empty, and the fresh
UUID is used when the orderId is absent or the empty string (Python
falsiness of the empty string). -/
theorem form_data_orderId_echo (c : Client) (a : Int) (cur s u ts : String)
    (h : s ≠ "") :
    (create_payment_form_data c a cur (some s) u ts).orderId = s
    ∧ (create_payment_form_data c a cur none u ts).orderId = u
    ∧ (create_payment_form_data c a cur (some "") u ts).orderId = u := by
  refine ⟨?_, rfl, rfl⟩
  simp [create_payment_form_data, pyTruthyStr, h]

/-- C5 witness: the amended orderId behaviour at concrete inputs. -/
theorem form_data_orderId_echo_witness :
    "ORDER-123" ≠ ""
    ∧ ((create_payment_form_data localClient 2999 "USD" (some "ORDER-123")
          "8b5c3a10-0000-4000-8000-000000000002" "2024-01-01T00:00:00").orderId = "ORDER-123"
      ∧ (create_payment_form_data localClient 2999 "USD" none
          "8b5c3a10-0000-4000-8000-000000000002" "2024-01-01T00:00:00").orderId
          = "8b5c3a10-0000-4000-8000-000000000002"
      ∧ (create_payment_form_data localClient 2999 "USD" (some "")
          "8b5c3a10-0000-4000-8000-000000000002" "2024-01-01T00:00:00").orderId
          = "8b5c3a10-0000-4000-8000-000000000002") :=
  ⟨by decide,
   form_data_orderId_echo localClient 2999 "USD" "ORDER-123"
     "8b5c3a10-0000-4000-8000-000000000002" "2024-01-01T00:00:00" (by decide)⟩

/-- C6 counterexample: a completed health-check response with status 200 and
a body that is not valid JSON makes health_check raise the JSON-decoding
error, which is not a connection-level error. -/
theorem health_check_invalid_json_cex :
    (health_check localClient (.response 200 (.invalidJson "<html>"))).2
      = Except.error HealthError.jsonDecodeError
    ∧ HealthError.isConnectionError HealthError.jsonDecodeError = false :=
  ⟨rfl, rfl⟩

/-- C6 amended: when the health-check request cannot complete (network
failure or timeout), health_check raises the connection-level error; when it
completes below status 400 with a body that is not valid JSON it raises the
JSON-decoding error, which is not a connection-level error; when it
completes below status 400 with valid JSON it returns the decoded body. -/
theorem health_check_error_classes (c : Client) (msg raw : String)
    (status : Nat) (j : Json) (h : status < 400) :
    (health_check c (.netFailure msg)).2 = Except.error (HealthError.connectionFailure msg)
    ∧ HealthError.isConnectionError (HealthError.connectionFailure msg) = true
    ∧ (health_check c (.response status (.invalidJson raw))).2
        = Except.error HealthError.jsonDecodeError
    ∧ HealthError.isConnectionError HealthError.jsonDecodeError = false
    ∧ (health_check c (.response status (.validJson j))).2 = Except.ok j := by
  have hlt : ¬ 400 ≤ status := by omega
  refine ⟨rfl, rfl, ?_, rfl, ?_⟩ <;> simp [health_check, hlt]

/-- C6 witness: the health-check error classification at concrete inputs. -/
theorem health_check_error_classes_witness :
    (200 : Nat) < 400
    ∧ ((health_check localClient (.netFailure "Connection timed out")).2
        = Except.error (HealthError.connectionFailure "Connection timed out")
      ∧ HealthError.isConnectionError (HealthError.connectionFailure "Connection timed out") = true
      ∧ (health_check localClient (.response 200 (.invalidJson "<html>"))).2
        = Except.error HealthError.jsonDecodeError
      ∧ HealthError.isConnectionError HealthError.jsonDecodeError = false
      ∧ (health_check localClient (.response 200 (.validJson declinedBody))).2
        = Except.ok declinedBody) :=
  ⟨by decide,
   health_check_error_classes localClient "Connection timed out" "<html>"
     200 declinedBody (by decide)⟩

end Boom
